import Mathlib

/-!
# Order Lifecycle & Delivery Dispatch Engine — verification development

Shallow embedding of the order-lifecycle core of the `api-delivery` Flask
application (`src/app.py`): order creation with financial computation,
the order-number generator, the status state machine, courier dispatch
(operator push and courier pull), the two-phase delivery confirmation
handshake, order cancellation, and the coupon validator.

Modelling conventions:
* Monetary amounts are `ℚ` (Python's binary floats idealized as exact
  decimals; every concrete instance evaluated below is far from a rounding
  tie, so the idealization agrees with the float computation there).
* `datetime` values are abstract `Nat` ticks supplied as a `now` parameter.
* Mongo documents become records; the handler's `find_one` result is passed
  in directly (as the record, or as an `Option` where the not-found branch
  matters); a handler's single `update_one` is reflected by returning the
  updated record in `Except.ok`, an error response by `Except.error`.
* The JWT role decorator (`role_required`) is folded into the handler as a
  leading role test, mirroring that it runs before the handler body.
-/

/-- Error kinds, following the application's HTTP error responses:
`validationError` = 400 malformed input, `forbidden` = 403,
`notFound` = 404, `conflict` = the 400 "Pedido ya asignado a otro
repartidor" already-assigned response of the accept endpoint,
`invalidState` = the 400 wrong-state / no-courier responses of
`confirm_received`. -/
inductive Err where
  | validationError
  | forbidden
  | notFound
  | conflict
  | invalidState
deriving DecidableEq, Repr

/-- One entry of an order's `statusHistory` array. -/
structure StatusEntry where
  status : String
  timestamp : Nat
  note : String
deriving DecidableEq, Repr

/-- One element of the client-supplied `items` array of an order
(`create_order` reads `subtotal`, `quantity`, `dishId`, and
`items[0].restaurantId`). -/
structure OrderItem where
  dishId : Option String
  name : String
  quantity : Nat
  unitPrice : ℚ
  subtotal : ℚ
  restaurantId : Option String
deriving DecidableEq, Repr, Inhabited

/-- An order document, with the fields the lifecycle handlers read or
write. Fields are `Option`-valued when the document is created without
them and they are `$set` later. -/
structure Order where
  orderNumber : String
  customerId : String
  restaurantId : Option String
  items : List OrderItem
  deliveryAddress : String
  subtotal : ℚ
  deliveryFee : ℚ
  discount : ℚ
  tax : ℚ
  tip : ℚ
  total : ℚ
  coupon : Option String
  status : String
  statusHistory : List StatusEntry
  paymentMethod : String
  paymentStatus : String
  deliveryPersonId : Option String
  confirmedAt : Option Nat
  preparingAt : Option Nat
  readyAt : Option Nat
  onDeliveryAt : Option Nat
  acceptedAt : Option Nat
  deliveredAt : Option Nat
  receivedAt : Option Nat
  cancelledAt : Option Nat
  cancellationReason : Option String
  cancelledBy : Option String
  createdAt : Nat
  updatedAt : Nat
deriving DecidableEq, Repr

/-- A delivery-person document (the fields `assign_delivery_person`'s
`find_one` filters on, plus the id it stores into the order). -/
structure Courier where
  id : String
  isAvailable : Bool
  isOnline : Bool
deriving DecidableEq, Repr

/-- `round(x, 2)` of Python, idealized over `ℚ`: round to the nearest
multiple of `1/100`. -/
def round2 (q : ℚ) : ℚ := (round (q * 100) : ℤ) / 100

/-- Decimal digit string of a natural number, most significant digit
first — the value of Python's `str(n)` for `n > 0`, built on
`Nat.digits` so that injectivity is available. -/
def decimalRepr (n : Nat) : List Char :=
  ((Nat.digits 10 n).reverse.map Nat.digitChar)

/-- Python's `str(n).zfill(4)`: left-pad the decimal representation with
`'0'` to a length of at least 4. -/
def zfill4 (n : Nat) : String :=
  (List.replicate (4 - (decimalRepr n).length) '0' ++ decimalRepr n).asString

/-- `generate_order_number` (src/app.py:159): given today's date string
and the count of existing orders whose `orderNumber` matches
`^ORD-<today>`, produce `ORD-<today>-<zfill4 (count+1)>`. The Mongo
`count_documents` call is abstracted into the `countToday` parameter. -/
def generate_order_number (today : String) (countToday : Nat) : String :=
  "ORD-" ++ today ++ "-" ++ zfill4 (countToday + 1)

/-- The recognized status strings of `update_order_status`
(src/app.py:1312). -/
def validStatuses : List String :=
  ["pending", "confirmed", "preparing", "ready", "on_delivery", "delivered", "cancelled"]

/-- `create_order` (src/app.py:1163): validates items and address,
computes the financial fields, allocates the order number, and builds the
order document persisted with `status = "pending"`. The JWT identity is
`customerId`; `deliveryFee`, `discount`, `tip` arrive with their
`data.get` defaults already applied (35, 0, 0). -/
def create_order (customerId : String) (items : List OrderItem)
    (deliveryAddress : Option String) (deliveryFee discount tip : ℚ)
    (coupon : Option String) (paymentMethod : String)
    (today : String) (countToday : Nat) (now : Nat) : Except Err Order :=
  if items.isEmpty then .error .validationError
  else
    match deliveryAddress with
    | none => .error .validationError
    | some addr =>
      let subtotal : ℚ := (items.map OrderItem.subtotal).sum
      let tax : ℚ := subtotal * (16 / 100)
      let total : ℚ := subtotal + deliveryFee - discount + tax + tip
      .ok
        { orderNumber := generate_order_number today countToday
          customerId := customerId
          restaurantId := (items.headI).restaurantId
          items := items
          deliveryAddress := addr
          subtotal := round2 subtotal
          deliveryFee := round2 deliveryFee
          discount := round2 discount
          tax := round2 tax
          tip := round2 tip
          total := round2 total
          coupon := coupon
          status := "pending"
          statusHistory := [⟨"pending", now, "Pedido recibido"⟩]
          paymentMethod := paymentMethod
          paymentStatus := "pending"
          deliveryPersonId := none
          confirmedAt := none
          preparingAt := none
          readyAt := none
          onDeliveryAt := none
          acceptedAt := none
          deliveredAt := none
          receivedAt := none
          cancelledAt := none
          cancellationReason := none
          cancelledBy := none
          createdAt := now
          updatedAt := now }

/-- `update_order_status` (src/app.py:1303), with its
`role_required(['admin', 'restaurant_owner', 'delivery'])` decorator.
The status validity checks run before the order lookup; the order passed
in is the found document. Sets `status`, the matching phase timestamp,
`paymentStatus = "paid"` on `delivered`, and pushes one history entry. -/
def update_order_status (role : String) (o : Order) (newStatus : String)
    (note : String) (now : Nat) : Except Err Order :=
  if role ∉ ["admin", "restaurant_owner", "delivery"] then .error .forbidden
  else if newStatus = "" then .error .validationError
  else if newStatus ∉ validStatuses then .error .validationError
  else
    .ok
      { o with
        status := newStatus
        updatedAt := now
        confirmedAt := if newStatus = "confirmed" then some now else o.confirmedAt
        preparingAt := if newStatus = "preparing" then some now else o.preparingAt
        readyAt := if newStatus = "ready" then some now else o.readyAt
        onDeliveryAt := if newStatus = "on_delivery" then some now else o.onDeliveryAt
        deliveredAt := if newStatus = "delivered" then some now else o.deliveredAt
        paymentStatus := if newStatus = "delivered" then "paid" else o.paymentStatus
        statusHistory := o.statusHistory ++ [⟨newStatus, now, note⟩] }

/-- `assign_delivery_person` (src/app.py:1382), with its
`role_required(['admin', 'restaurant_owner'])` decorator. `courier` is
the result of the `find_one` on `{_id, isAvailable: True, isOnline: True}`
(so `none` also covers a missing/unknown id, answered 404). The order
update is unconditional: it `$set`s `deliveryPersonId`, `status`, and
`onDeliveryAt` without inspecting the order's current assignment. -/
def assign_delivery_person (role : String) (o : Order) (courier : Option Courier)
    (now : Nat) : Except Err Order :=
  if role ∉ ["admin", "restaurant_owner"] then .error .forbidden
  else
    match courier with
    | none => .error .notFound
    | some c =>
      if c.isAvailable && c.isOnline then
        .ok
          { o with
            deliveryPersonId := some c.id
            status := "on_delivery"
            onDeliveryAt := some now
            updatedAt := now }
      else .error .notFound

/-- `accept_delivery_order` (src/app.py:1832), with its
`role_required(['delivery'])` decorator; `courierId` is the JWT identity.
Fails (400 "Pedido ya asignado a otro repartidor") when
`order.deliveryPersonId` is truthy; otherwise `$set`s the courier,
`status = "on_delivery"`, and `acceptedAt`, pushing no history entry. -/
def accept_delivery_order (role : String) (o : Order) (courierId : String)
    (now : Nat) : Except Err Order :=
  if role ≠ "delivery" then .error .forbidden
  else if o.deliveryPersonId.isSome then .error .conflict
  else
    .ok
      { o with
        deliveryPersonId := some courierId
        status := "on_delivery"
        acceptedAt := some now
        updatedAt := now }

/-- `confirm_delivery` (src/app.py:1863), with its
`role_required(['delivery'])` decorator. The `find_one` filters on both
the order id and `deliveryPersonId = caller`, so a mismatch is 404. Sets
`status = "delivering_confirmation"`, `deliveredAt`, and pushes one
history entry. -/
def confirm_delivery (role : String) (o : Order) (courierId : String)
    (now : Nat) : Except Err Order :=
  if role ≠ "delivery" then .error .forbidden
  else if o.deliveryPersonId ≠ some courierId then .error .notFound
  else
    .ok
      { o with
        status := "delivering_confirmation"
        deliveredAt := some now
        updatedAt := now
        statusHistory := o.statusHistory ++
          [⟨"delivering_confirmation", now,
            "Repartidor confirmo la entrega, esperando confirmacion del cliente"⟩] }

/-- `confirm_received` (src/app.py:1916): requires the caller's role to
be `customer`, the order to belong to the caller, `status =
"delivering_confirmation"`, and a courier to be assigned; then sets
`status = "delivered"`, `receivedAt`, `paymentStatus = "paid"`, and
pushes one history entry. -/
def confirm_received (role : String) (userId : String) (o : Order)
    (now : Nat) : Except Err Order :=
  if role ≠ "customer" then .error .forbidden
  else if o.customerId ≠ userId then .error .forbidden
  else if o.status ≠ "delivering_confirmation" then .error .invalidState
  else if o.deliveryPersonId.isNone then .error .invalidState
  else
    .ok
      { o with
        status := "delivered"
        receivedAt := some now
        updatedAt := now
        paymentStatus := "paid"
        statusHistory := o.statusHistory ++
          [⟨"delivered", now, "Cliente confirmo la recepcion del pedido"⟩] }

/-- `cancel_order` (src/app.py:1985): plain `jwt_required`, no role
restriction (the handler fetches the user document but never reads its
role). `cancelledBy` is the request-supplied `cancelled_by` value
(default `"customer"`): when it is `"customer"` the caller must be the
order's customer, when `"delivery"` the caller must be the assigned
courier (`str(order.get('deliveryPersonId', ''))`), and any other value
passes both `elif` guards. Sets `status = "cancelled"`,
`cancellationReason`, `cancelledBy`, `cancelledAt`; no history push. -/
def cancel_order (o : Order) (userId : String) (reason : String)
    (cancelledBy : String) (now : Nat) : Except Err Order :=
  if cancelledBy = "customer" ∧ o.customerId ≠ userId then .error .forbidden
  else if cancelledBy = "delivery" ∧ o.deliveryPersonId.getD "" ≠ userId then
    .error .forbidden
  else
    .ok
      { o with
        status := "cancelled"
        cancellationReason := some reason
        cancelledBy := some cancelledBy
        cancelledAt := some now
        updatedAt := now }

/-- A coupon document, with the fields `validate_coupon` reads. `Option`
fields model keys that may be absent/`None`; the handler additionally
treats `0` values of `usageLimit` and `maxDiscountAmount` as unset
(Python truthiness), which the definitions below reproduce. -/
structure Coupon where
  code : String
  discountType : String
  discountValue : ℚ
  minOrderAmount : ℚ
  maxDiscountAmount : Option ℚ
  usageLimit : Option Nat
  usageCount : Nat
  validFrom : Option Nat
  validUntil : Option Nat
  applicableTo : String
  restaurantIds : List String
  isForNewUsersOnly : Bool
deriving DecidableEq, Repr

/-- The `discount` variable of `validate_coupon` after the
`discountType` branch (src/app.py:1579): percentage of the order amount
or the fixed value. -/
def couponBaseDiscount (c : Coupon) (orderAmount : ℚ) : ℚ :=
  if c.discountType = "percentage" then orderAmount * (c.discountValue / 100)
  else c.discountValue

/-- The `discount` variable after the cap step (src/app.py:1585):
clamped by `min` when `maxDiscountAmount` is truthy. -/
def couponClampedDiscount (c : Coupon) (orderAmount : ℚ) : ℚ :=
  match c.maxDiscountAmount with
  | some m =>
    if m ≠ 0 then min (couponBaseDiscount c orderAmount) m
    else couponBaseDiscount c orderAmount
  | none => couponBaseDiscount c orderAmount

/-- `validate_coupon` (src/app.py:1536 region): `coupon` is the
`find_one` on `{code, isActive: True}` (`none` = no active match, 404);
`userOrderCount` abstracts the `count_documents` on the caller's orders.
Returns the discount amount the handler would respond with. -/
def validate_coupon (coupon : Option Coupon) (orderAmount : ℚ)
    (restaurantId : String) (userOrderCount : Nat) (now : Nat) :
    Except Err ℚ :=
  match coupon with
  | none => .error .notFound
  | some c =>
    if c.validFrom.any (fun vf => decide (now < vf)) then
      .error .validationError
    else if c.validUntil.any (fun vu => decide (vu < now)) then
      .error .validationError
    else if c.usageLimit.any (fun l => decide (l ≠ 0) && decide (l ≤ c.usageCount)) then
      .error .validationError
    else if orderAmount < c.minOrderAmount then .error .validationError
    else if c.isForNewUsersOnly ∧ 0 < userOrderCount then .error .validationError
    else if c.applicableTo = "specific_restaurants" ∧ restaurantId ∉ c.restaurantIds then
      .error .validationError
    else
      .ok (round2 (couponClampedDiscount c orderAmount))

/-- The stored order document after a handler call: the updated document
when the handler reached its `update_one`, the unchanged one when it
answered an error response first. -/
def storedAfter (o : Order) (r : Except Err Order) : Order :=
  match r with
  | .ok o' => o'
  | .error _ => o

/-- The mutating operations on an existing order, for stating temporal
invariants across all of them. -/
inductive Op where
  | transition (role : String) (newStatus : String) (note : String)
  | assign (role : String) (courier : Option Courier)
  | accept (role : String) (courierId : String)
  | confirmDelivery (role : String) (courierId : String)
  | confirmReceived (role : String) (userId : String)
  | cancel (userId : String) (reason : String) (cancelledBy : String)

/-- Dispatch an operation to its handler. -/
def step (op : Op) (o : Order) (now : Nat) : Except Err Order :=
  match op with
  | .transition r ns note => update_order_status r o ns note now
  | .assign r c => assign_delivery_person r o c now
  | .accept r cid => accept_delivery_order r o cid now
  | .confirmDelivery r cid => confirm_delivery r o cid now
  | .confirmReceived r uid => confirm_received r uid o now
  | .cancel uid reason cb => cancel_order o uid reason cb now

/-- Discount formula as the specification words it (§4.5): percentage or
fixed base, clamped to `maxDiscountAmount` when that cap is set, rounded
to 2 decimals. (`create_coupon`, src/app.py:1616, stores `None` for a
falsy cap, so "set" means `some m` with `m ≠ 0` never occurring as
`some 0` in app-created documents.) -/
def specDiscount (c : Coupon) (amount : ℚ) : ℚ :=
  let base : ℚ :=
    if c.discountType = "percentage" then amount * (c.discountValue / 100)
    else c.discountValue
  let capped : ℚ :=
    match c.maxDiscountAmount with
    | some m => min base m
    | none => base
  round2 capped

/-- Left inverse of `Nat.digitChar` on decimal digits. -/
def charDigit (c : Char) : Nat :=
  if c = '0' then 0 else if c = '1' then 1 else if c = '2' then 2
  else if c = '3' then 3 else if c = '4' then 4 else if c = '5' then 5
  else if c = '6' then 6 else if c = '7' then 7 else if c = '8' then 8
  else if c = '9' then 9 else 10

/-- A sample in-flight order used to evaluate the theorems below on
concrete data. -/
def baseOrder : Order where
  orderNumber := "ORD-20251012-0001"
  customerId := "alice"
  restaurantId := some "r1"
  items := []
  deliveryAddress := "addr"
  subtotal := 100
  deliveryFee := 35
  discount := 0
  tax := 16
  tip := 0
  total := 151
  coupon := none
  status := "pending"
  statusHistory := [⟨"pending", 0, "Pedido recibido"⟩]
  paymentMethod := "cash"
  paymentStatus := "pending"
  deliveryPersonId := none
  confirmedAt := none
  preparingAt := none
  readyAt := none
  onDeliveryAt := none
  acceptedAt := none
  deliveredAt := none
  receivedAt := none
  cancelledAt := none
  cancellationReason := none
  cancelledBy := none
  createdAt := 0
  updatedAt := 0

/-- `baseOrder` already assigned to courier `"c1"`. -/
def c1Order : Order :=
  { baseOrder with
    deliveryPersonId := some "c1"
    status := "on_delivery"
    onDeliveryAt := some 2
    updatedAt := 2 }

/-- `c1Order` awaiting the customer's receipt confirmation. -/
def dcOrder : Order :=
  { c1Order with
    status := "delivering_confirmation"
    deliveredAt := some 4
    updatedAt := 4
    statusHistory := c1Order.statusHistory ++
      [⟨"delivering_confirmation", 4,
        "Repartidor confirmo la entrega, esperando confirmacion del cliente"⟩] }

/-- A one-line item whose client-supplied subtotal is `0.030625`
(`49/1600`), a value a JSON client may send. -/
def fractionalItem : OrderItem :=
  ⟨none, "item", 1, 49/1600, 49/1600, some "r1"⟩

/-- A one-line item with subtotal `239.00` (the spec's end-to-end
example). -/
def menuItem239 : OrderItem :=
  ⟨none, "menu", 1, 239, 239, some "r1"⟩

/-- An active fixed coupon with `minOrderAmount = 150`. -/
def couponMin150 : Coupon :=
  ⟨"SAVE", "fixed", 10, 150, none, none, 0, none, none, "all", [], false⟩

/-- An active 20% coupon capped at 30. -/
def couponPct20Cap30 : Coupon :=
  ⟨"PCT20", "percentage", 20, 0, some 30, none, 0, none, none, "all", [], false⟩

/-- The order `create_order` persists for `[fractionalItem]` with fee,
discount, tip all 0, financial fields written out as literal values. -/
def fractionalOrder : Order where
  orderNumber := generate_order_number "20251012" 0
  customerId := "alice"
  restaurantId := some "r1"
  items := [fractionalItem]
  deliveryAddress := "addr"
  subtotal := 3/100
  deliveryFee := 0
  discount := 0
  tax := 0
  tip := 0
  total := 1/25
  coupon := none
  status := "pending"
  statusHistory := [⟨"pending", 3, "Pedido recibido"⟩]
  paymentMethod := "cash"
  paymentStatus := "pending"
  deliveryPersonId := none
  confirmedAt := none
  preparingAt := none
  readyAt := none
  onDeliveryAt := none
  acceptedAt := none
  deliveredAt := none
  receivedAt := none
  cancelledAt := none
  cancellationReason := none
  cancelledBy := none
  createdAt := 3
  updatedAt := 3

/-- The order `create_order` persists for `[menuItem239]` with fee 35,
discount 0, tip 30 — the spec's end-to-end instance — financial fields
written out as literal values. -/
def menu239Order : Order where
  orderNumber := generate_order_number "20251012" 0
  customerId := "alice"
  restaurantId := some "r1"
  items := [menuItem239]
  deliveryAddress := "addr"
  subtotal := 239
  deliveryFee := 35
  discount := 0
  tax := 3824/100
  tip := 30
  total := 34224/100
  coupon := none
  status := "pending"
  statusHistory := [⟨"pending", 3, "Pedido recibido"⟩]
  paymentMethod := "cash"
  paymentStatus := "pending"
  deliveryPersonId := none
  confirmedAt := none
  preparingAt := none
  readyAt := none
  onDeliveryAt := none
  acceptedAt := none
  deliveredAt := none
  receivedAt := none
  cancelledAt := none
  cancellationReason := none
  cancelledBy := none
  createdAt := 3
  updatedAt := 3
/-- C3: `ConfirmReceived` succeeds exactly when the caller's role is
`customer`, the caller owns the order, the status is
`delivering_confirmation`, and a courier is assigned; on success it sets
`status = "delivered"`, `receivedAt`, `paymentStatus = "paid"` and
appends one history entry; every failure is `Forbidden` or
`InvalidState` (and, the handler answering before its `update_one`, the
stored order is unchanged). -/
theorem C3_confirm_received_spec (role userId : String) (o : Order) (now : Nat) :
    ((∃ o', confirm_received role userId o now = .ok o') ↔
      role = "customer" ∧ o.customerId = userId ∧
      o.status = "delivering_confirmation" ∧ o.deliveryPersonId.isSome) ∧
    (∀ o', confirm_received role userId o now = .ok o' →
      o'.status = "delivered" ∧ o'.receivedAt = some now ∧
      o'.paymentStatus = "paid" ∧
      o'.statusHistory = o.statusHistory ++
        [⟨"delivered", now, "Cliente confirmo la recepcion del pedido"⟩]) ∧
    (∀ e, confirm_received role userId o now = .error e →
      (e = .forbidden ∨ e = .invalidState) ∧
      storedAfter o (confirm_received role userId o now) = o) := by
  unfold confirm_received
  split_ifs with h1 h2 h3 h4 <;>
    simp_all [storedAfter, Option.isNone_iff_eq_none, Option.isSome_iff_ne_none]

/-- C5: for an existing order, `Transition` with a status string outside
the recognized set fails `ValidationError`, and the stored order (hence
its `status` and `statusHistory`) is exactly what it was. -/
theorem C5_unrecognized_status (role : String) (o : Order) (ns note : String)
    (now : Nat) (hrole : role ∈ ["admin", "restaurant_owner", "delivery"])
    (hns : ns ∉ validStatuses) :
    update_order_status role o ns note now = .error .validationError ∧
    storedAfter o (update_order_status role o ns note now) = o := by
  have h : update_order_status role o ns note now = .error .validationError := by
    unfold update_order_status
    rw [if_neg (not_not_intro hrole)]
    by_cases hempty : ns = ""
    · rw [if_pos hempty]
    · rw [if_neg hempty, if_pos hns]
  exact ⟨h, by rw [h]; rfl⟩

/-- Evaluates `C5_unrecognized_status` at a concrete unrecognized status. -/
theorem C5_unrecognized_status_witness :
    update_order_status "admin" baseOrder "flying" "" 3 = .error .validationError ∧
    storedAfter baseOrder (update_order_status "admin" baseOrder "flying" "" 3) = baseOrder :=
  C5_unrecognized_status "admin" baseOrder "flying" "" 3 (by decide) (by decide)

/-- C6: `SelfAccept` on an already-assigned order fails `Conflict` (the
handler writes nothing); on an unassigned order it assigns the calling
courier, sets `status = "on_delivery"` and `acceptedAt = now`. -/
theorem C6_self_accept (o : Order) (cid : String) (now : Nat) :
    (o.deliveryPersonId.isSome →
      accept_delivery_order "delivery" o cid now = .error .conflict ∧
      storedAfter o (accept_delivery_order "delivery" o cid now) = o) ∧
    (o.deliveryPersonId = none →
      accept_delivery_order "delivery" o cid now =
        .ok { o with
              deliveryPersonId := some cid
              status := "on_delivery"
              acceptedAt := some now
              updatedAt := now }) := by
  constructor
  · intro h
    have he : accept_delivery_order "delivery" o cid now = .error .conflict := by
      simp [accept_delivery_order, h]
    exact ⟨he, by rw [he]; rfl⟩
  · intro h
    simp [accept_delivery_order, h]

/-- Evaluates `C6_self_accept` on an assigned and an unassigned order. -/
theorem C6_self_accept_witness :
    (accept_delivery_order "delivery" c1Order "c9" 7 = .error .conflict ∧
      storedAfter c1Order (accept_delivery_order "delivery" c1Order "c9" 7) = c1Order) ∧
    accept_delivery_order "delivery" baseOrder "c9" 7 =
      .ok { baseOrder with
            deliveryPersonId := some "c9"
            status := "on_delivery"
            acceptedAt := some 7
            updatedAt := 7 } :=
  ⟨(C6_self_accept c1Order "c9" 7).1 rfl, (C6_self_accept baseOrder "c9" 7).2 rfl⟩

/-- Evaluates `C3_confirm_received_spec`: the owner confirms a
`delivering_confirmation` order with a courier assigned, successfully. -/
theorem C3_confirm_received_spec_witness :
    ∃ o', confirm_received "customer" "alice" dcOrder 7 = .ok o' :=
  (C3_confirm_received_spec "customer" "alice" dcOrder 7).1.mpr ⟨rfl, rfl, rfl, rfl⟩

/-- C10: successful `AssignToOrder`, `SelfAccept`, and `Cancel` leave
`statusHistory` exactly as it was (their `update_one` has no `$push`),
while `Transition`, `ConfirmDelivered`, `ConfirmReceived` each append
exactly one entry and creation starts the history at exactly the initial
`pending` entry. -/
theorem C10_history_frame (role : String) (o : Order) (c : Option Courier)
    (cid uid reason cb ns note : String) (now : Nat) :
    (∀ o', assign_delivery_person role o c now = .ok o' →
      o'.statusHistory = o.statusHistory) ∧
    (∀ o', accept_delivery_order role o cid now = .ok o' →
      o'.statusHistory = o.statusHistory) ∧
    (∀ o', cancel_order o uid reason cb now = .ok o' →
      o'.statusHistory = o.statusHistory) ∧
    (∀ o', update_order_status role o ns note now = .ok o' →
      o'.statusHistory = o.statusHistory ++ [⟨ns, now, note⟩]) ∧
    (∀ o', confirm_delivery role o cid now = .ok o' →
      o'.statusHistory = o.statusHistory ++
        [⟨"delivering_confirmation", now,
          "Repartidor confirmo la entrega, esperando confirmacion del cliente"⟩]) ∧
    (∀ o', confirm_received role uid o now = .ok o' →
      o'.statusHistory = o.statusHistory ++
        [⟨"delivered", now, "Cliente confirmo la recepcion del pedido"⟩]) ∧
    (∀ (custId : String) (items : List OrderItem) (addr : Option String)
        (fee disc tip : ℚ) (cpn : Option String) (pm today : String) (cnt : Nat),
      ∀ o', create_order custId items addr fee disc tip cpn pm today cnt now = .ok o' →
      o'.statusHistory = [⟨"pending", now, "Pedido recibido"⟩]) := by
  refine ⟨?_, ?_, ?_, ?_, ?_, ?_, ?_⟩
  · intro o' h
    unfold assign_delivery_person at h
    split at h
    · exact absurd h (by simp)
    · split at h
      · exact absurd h (by simp)
      · split at h
        · injection h with h; subst h; rfl
        · exact absurd h (by simp)
  · intro o' h
    unfold accept_delivery_order at h
    split at h
    · exact absurd h (by simp)
    · split at h
      · exact absurd h (by simp)
      · injection h with h; subst h; rfl
  · intro o' h
    unfold cancel_order at h
    split at h
    · exact absurd h (by simp)
    · split at h
      · exact absurd h (by simp)
      · injection h with h; subst h; rfl
  · intro o' h
    unfold update_order_status at h
    split at h
    · exact absurd h (by simp)
    · split at h
      · exact absurd h (by simp)
      · split at h
        · exact absurd h (by simp)
        · injection h with h; subst h; rfl
  · intro o' h
    unfold confirm_delivery at h
    split at h
    · exact absurd h (by simp)
    · split at h
      · exact absurd h (by simp)
      · injection h with h; subst h; rfl
  · intro o' h
    unfold confirm_received at h
    split at h
    · exact absurd h (by simp)
    · split at h
      · exact absurd h (by simp)
      · split at h
        · exact absurd h (by simp)
        · split at h
          · exact absurd h (by simp)
          · injection h with h; subst h; rfl
  · intro custId items addr fee disc tip cpn pm today cnt o' h
    unfold create_order at h
    split at h
    · exact absurd h (by simp)
    · split at h
      · exact absurd h (by simp)
      · injection h with h; subst h; rfl

/-- Evaluates `C10_history_frame`: a concrete successful assignment
leaves the history untouched. -/
theorem C10_history_frame_witness :
    ({ baseOrder with
       deliveryPersonId := some "c2"
       status := "on_delivery"
       onDeliveryAt := some 5
       updatedAt := 5 } : Order).statusHistory = baseOrder.statusHistory :=
  (C10_history_frame "admin" baseOrder (some ⟨"c2", true, true⟩)
    "x" "x" "x" "x" "x" "x" 5).1 _ (by rfl)

/-- C4: across every mutating operation, `paymentStatus` can change away
from non-`paid` to `paid` only in a step whose resulting status is
`delivered`; and creation always starts at `paymentStatus = "pending"`. -/
theorem C4_paid_only_at_delivered :
    (∀ (op : Op) (o o' : Order) (now : Nat),
      step op o now = .ok o' → o.paymentStatus ≠ "paid" →
      o'.paymentStatus = "paid" → o'.status = "delivered") ∧
    (∀ (custId : String) (items : List OrderItem) (addr : Option String)
        (fee disc tip : ℚ) (cpn : Option String) (pm today : String) (cnt now : Nat) (o : Order),
      create_order custId items addr fee disc tip cpn pm today cnt now = .ok o →
      o.paymentStatus = "pending") := by
  constructor
  · intro op o o' now h hpre hpost
    cases op with
    | transition r ns note =>
      simp only [step] at h
      unfold update_order_status at h
      split at h
      · exact absurd h (by simp)
      · split at h
        · exact absurd h (by simp)
        · split at h
          · exact absurd h (by simp)
          · injection h with h; subst h
            by_cases hns : ns = "delivered"
            · simpa using hns
            · exact absurd (by simpa [hns] using hpost) hpre
    | assign r c =>
      simp only [step] at h
      unfold assign_delivery_person at h
      split at h
      · exact absurd h (by simp)
      · split at h
        · exact absurd h (by simp)
        · split at h
          · injection h with h; subst h
            exact absurd hpost hpre
          · exact absurd h (by simp)
    | accept r cid =>
      simp only [step] at h
      unfold accept_delivery_order at h
      split at h
      · exact absurd h (by simp)
      · split at h
        · exact absurd h (by simp)
        · injection h with h; subst h
          exact absurd hpost hpre
    | confirmDelivery r cid =>
      simp only [step] at h
      unfold confirm_delivery at h
      split at h
      · exact absurd h (by simp)
      · split at h
        · exact absurd h (by simp)
        · injection h with h; subst h
          exact absurd hpost hpre
    | confirmReceived r uid =>
      simp only [step] at h
      unfold confirm_received at h
      split at h
      · exact absurd h (by simp)
      · split at h
        · exact absurd h (by simp)
        · split at h
          · exact absurd h (by simp)
          · split at h
            · exact absurd h (by simp)
            · injection h with h; subst h; rfl
    | cancel uid reason cb =>
      simp only [step] at h
      unfold cancel_order at h
      split at h
      · exact absurd h (by simp)
      · split at h
        · exact absurd h (by simp)
        · injection h with h; subst h
          exact absurd hpost hpre
  · intro custId items addr fee disc tip cpn pm today cnt now o h
    unfold create_order at h
    split at h
    · exact absurd h (by simp)
    · split at h
      · exact absurd h (by simp)
      · injection h with h; subst h; rfl

/-- Evaluates `C4_paid_only_at_delivered` on a concrete operator
transition that flips `paymentStatus` to `paid`. -/
theorem C4_paid_only_at_delivered_witness :
    ({ baseOrder with
       status := "delivered"
       deliveredAt := some 5
       paymentStatus := "paid"
       updatedAt := 5
       statusHistory := baseOrder.statusHistory ++ [⟨"delivered", 5, ""⟩] } : Order).status
      = "delivered" :=
  C4_paid_only_at_delivered.1 (.transition "admin" "delivered" "") baseOrder _ 5
    (by rfl) (by decide) (by rfl)

/-- C1 fails on the code: `assign_delivery_person` never checks the
existing assignment, so an operator `AssignToOrder` on an order whose
`deliveryPersonId` is already `"c1"` succeeds and stores a different
courier `"c2"`. -/
theorem C1_reassignment_counterexample :
    c1Order.deliveryPersonId = some "c1" ∧
    assign_delivery_person "admin" c1Order (some ⟨"c2", true, true⟩) 5 =
      .ok { c1Order with
            deliveryPersonId := some "c2"
            status := "on_delivery"
            onDeliveryAt := some 5
            updatedAt := 5 } ∧
    ("c2" : String) ≠ "c1" := by
  refine ⟨rfl, rfl, by decide⟩

/-- C1 amended: only the courier-initiated `SelfAccept` protects an
existing assignment (failing `Conflict`); the operator-initiated
`AssignToOrder` overwrites `deliveryPersonId` unconditionally whenever
the target courier is available and online. -/
theorem C1_set_once_amended (o : Order) (cid : String) (c : Courier) (now : Nat) :
    (o.deliveryPersonId.isSome →
      accept_delivery_order "delivery" o cid now = .error .conflict) ∧
    (c.isAvailable = true → c.isOnline = true →
      ∃ o', assign_delivery_person "admin" o (some c) now = .ok o' ∧
        o'.deliveryPersonId = some c.id) := by
  constructor
  · intro h
    simp [accept_delivery_order, h]
  · intro ha ho
    have hc : (c.isAvailable && c.isOnline) = true := by simp [ha, ho]
    exact ⟨{ o with
             deliveryPersonId := some c.id
             status := "on_delivery"
             onDeliveryAt := some now
             updatedAt := now },
           by simp [assign_delivery_person, hc], rfl⟩

/-- Evaluates `C1_set_once_amended` on concrete data. -/
theorem C1_set_once_amended_witness :
    accept_delivery_order "delivery" c1Order "c9" 9 = .error .conflict ∧
    ∃ o', assign_delivery_person "admin" c1Order (some ⟨"c2", true, true⟩) 9 = .ok o' ∧
      o'.deliveryPersonId = some "c2" :=
  ⟨(C1_set_once_amended c1Order "c9" ⟨"c2", true, true⟩ 9).1 rfl,
   (C1_set_once_amended c1Order "c9" ⟨"c2", true, true⟩ 9).2 rfl rfl⟩

/-- C7 fails on the code: `cancel_order` never reads the caller's role,
and its two authorization guards are keyed to the request-supplied
`cancelled_by` value. A caller who is neither the order's customer
(`"alice"`), nor its courier (`"c1"`), nor an admin cancels successfully
by sending `cancelled_by = "admin"`. -/
theorem C7_cancel_auth_counterexample :
    c1Order.customerId ≠ "mallory" ∧
    c1Order.deliveryPersonId ≠ some "mallory" ∧
    cancel_order c1Order "mallory" "reason" "admin" 9 =
      .ok { c1Order with
            status := "cancelled"
            cancellationReason := some "reason"
            cancelledBy := some "admin"
            cancelledAt := some 9
            updatedAt := 9 } := by
  refine ⟨by decide, by decide, rfl⟩

/-- C7 amended: authorization is keyed to the request's `cancelledBy`
field — `"customer"` requires the caller to be the order's customer,
`"delivery"` requires the assigned courier, and any other value
(including `"admin"`) is accepted from any authenticated caller without
any role check; success always sets the cancellation fields, with no
restriction on the order's current status. -/
theorem C7_cancel_auth_amended (o : Order) (uid reason cb : String) (now : Nat) :
    (cb = "customer" → o.customerId ≠ uid →
      cancel_order o uid reason cb now = .error .forbidden) ∧
    (cb = "delivery" → o.deliveryPersonId.getD "" ≠ uid →
      cancel_order o uid reason cb now = .error .forbidden) ∧
    (cb ≠ "customer" → cb ≠ "delivery" →
      cancel_order o uid reason cb now =
        .ok { o with
              status := "cancelled"
              cancellationReason := some reason
              cancelledBy := some cb
              cancelledAt := some now
              updatedAt := now }) ∧
    (∀ o', cancel_order o uid reason cb now = .ok o' →
      o'.status = "cancelled" ∧ o'.cancellationReason = some reason ∧
      o'.cancelledBy = some cb ∧ o'.cancelledAt = some now) := by
  refine ⟨?_, ?_, ?_, ?_⟩
  · intro h1 h2
    simp [cancel_order, h1, h2]
  · intro h1 h2
    simp [cancel_order, h1, h2]
  · intro h1 h2
    simp [cancel_order, h1, h2]
  · intro o' h
    unfold cancel_order at h
    split at h
    · exact absurd h (by simp)
    · split at h
      · exact absurd h (by simp)
      · injection h with h; subst h
        exact ⟨rfl, rfl, rfl, rfl⟩

/-- Evaluates `C7_cancel_auth_amended`: a stranger sending
`cancelledBy = "customer"` is rejected, the owner's cancellation
succeeds. -/
theorem C7_cancel_auth_amended_witness :
    cancel_order baseOrder "mallory" "x" "customer" 9 = .error .forbidden ∧
    cancel_order baseOrder "alice" "x" "customer" 9 =
      .ok { baseOrder with
            status := "cancelled"
            cancellationReason := some "x"
            cancelledBy := some "customer"
            cancelledAt := some 9
            updatedAt := 9 } :=
  ⟨(C7_cancel_auth_amended baseOrder "mallory" "x" "customer" 9).1 rfl (by decide),
   by rfl⟩

/-- C2 fails on the code for non-cent inputs: `create_order` computes the
stored total by rounding `subtotal + fee − discount + subtotal·0.16 +
tip` once, with the unrounded tax. For a single item of subtotal
`0.030625` (fee, discount, tip 0) the stored tax is `0.00` and the stored
total is `0.04`, while the claimed formula `round(subtotal + deliveryFee
− discount + tax + tip, 2)` over the stored tax field yields `0.03`. -/
theorem C2_financials_counterexample :
    create_order "alice" [fractionalItem] (some "addr") 0 0 0 none "cash"
      "20251012" 0 3 = .ok fractionalOrder ∧
    fractionalOrder.tax = round2 ((49/1600 : ℚ) * (16/100)) ∧
    fractionalOrder.total = 1/25 ∧
    round2 ((49/1600 : ℚ) + 0 - 0 + fractionalOrder.tax + 0) = 3/100 ∧
    (1/25 : ℚ) ≠ 3/100 := by
  refine ⟨?_, ?_, rfl, ?_, by norm_num⟩
  · unfold create_order fractionalOrder
    norm_num [fractionalItem, round2, round_eq]
  · show (0 : ℚ) = round2 ((49/1600 : ℚ) * (16/100))
    rw [round2, round_eq]; norm_num
  · show round2 ((49/1600 : ℚ) + 0 - 0 + 0 + 0) = 3/100
    rw [round2, round_eq]; norm_num

/-- C2 amended: the stored tax is `round(subtotal × 0.16, 2)` and the
stored total is `round(subtotal + deliveryFee − discount + subtotal ×
0.16 + tip, 2)` — one rounding of the sum with the unrounded tax (the
two formulas coincide on whole-cent inputs, in particular on the spec's
end-to-end instance 239.00/35/0/30 ⇒ tax 38.24, total 342.24). -/
theorem C2_financials_amended :
    (∀ (custId : String) (items : List OrderItem) (addr : Option String)
        (fee disc tip : ℚ) (cpn : Option String) (pm today : String)
        (cnt now : Nat) (o : Order),
      create_order custId items addr fee disc tip cpn pm today cnt now = .ok o →
      o.tax = round2 ((items.map OrderItem.subtotal).sum * (16/100)) ∧
      o.total = round2 ((items.map OrderItem.subtotal).sum + fee - disc +
        (items.map OrderItem.subtotal).sum * (16/100) + tip)) ∧
    (create_order "alice" [menuItem239] (some "addr") 35 0 30 none "cash"
        "20251012" 0 3 = .ok menu239Order ∧
      menu239Order.tax = 3824/100 ∧ menu239Order.total = 34224/100) := by
  refine ⟨?_, ?_, rfl, rfl⟩
  · intro custId items addr fee disc tip cpn pm today cnt now o h
    unfold create_order at h
    split at h
    · exact absurd h (by simp)
    · split at h
      · exact absurd h (by simp)
      · injection h with h; subst h
        exact ⟨rfl, rfl⟩
  · unfold create_order menu239Order
    norm_num [menuItem239, round2, round_eq]

/-- Evaluates `C2_financials_amended`'s formulas on the end-to-end
instance. -/
theorem C2_financials_amended_witness :
    menu239Order.tax = round2 (([menuItem239].map OrderItem.subtotal).sum * (16/100)) ∧
    menu239Order.total = round2 (([menuItem239].map OrderItem.subtotal).sum + 35 - 0 +
      ([menuItem239].map OrderItem.subtotal).sum * (16/100) + 30) :=
  C2_financials_amended.1 "alice" [menuItem239] (some "addr") 35 0 30 none "cash"
    "20251012" 0 3 menu239Order C2_financials_amended.2.1

/-- C9: an active coupon whose `minOrderAmount` exceeds the order amount
is rejected with a 400 validation error; whenever validation succeeds the
returned discount is the spec's formula (percentage or fixed base,
clamped to a set cap, rounded to 2 decimals; `create_coupon` never
stores a `some 0` cap, hence the hypothesis). Concretely: amount 100
against `minOrderAmount` 150 fails, and amount 200 at 20% capped at 30
yields exactly 30. -/
theorem C9_coupon_validation :
    (∀ (c : Coupon) (amount : ℚ) (rid : String) (uoc now : Nat),
      (amount < c.minOrderAmount →
        validate_coupon (some c) amount rid uoc now = .error .validationError) ∧
      (c.maxDiscountAmount ≠ some 0 →
        ∀ d, validate_coupon (some c) amount rid uoc now = .ok d →
          d = specDiscount c amount)) ∧
    validate_coupon (some couponMin150) 100 "r1" 0 10 = .error .validationError ∧
    validate_coupon (some couponPct20Cap30) 200 "r1" 0 10 = .ok 30 := by
  refine ⟨?_, ?_, ?_⟩
  · intro c amount rid uoc now
    constructor
    · intro hmin
      simp only [validate_coupon]
      split_ifs <;> rfl
    · intro hcap d h
      simp only [validate_coupon] at h
      split_ifs at h
      injection h with h; subst h
      unfold specDiscount couponClampedDiscount
      cases hm : c.maxDiscountAmount with
      | none => simp [hm, couponBaseDiscount]
      | some m =>
        have hm0 : m ≠ 0 := fun h0 => hcap (by rw [hm, h0])
        simp [hm, hm0, couponBaseDiscount]
  · norm_num [validate_coupon, couponMin150]
  · norm_num [validate_coupon, couponPct20Cap30, couponClampedDiscount,
      couponBaseDiscount, round2, round_eq, min_def]
    exact fun hcontra => absurd hcontra (by decide)

/-- Evaluates `C9_coupon_validation`'s universal part on the two
concrete coupons. -/
theorem C9_coupon_validation_witness :
    validate_coupon (some couponMin150) 100 "r2" 3 10 = .error .validationError ∧
    (30 : ℚ) = specDiscount couponPct20Cap30 200 :=
  ⟨(C9_coupon_validation.1 couponMin150 100 "r2" 3 10).1 (by norm_num [couponMin150]),
   (C9_coupon_validation.1 couponPct20Cap30 200 "r1" 0 10).2 (by decide) 30
     C9_coupon_validation.2.2⟩

/-- `charDigit` inverts `Nat.digitChar` on decimal digits. -/
theorem charDigit_digitChar : ∀ d : Nat, d < 10 → charDigit (Nat.digitChar d) = d := by
  decide

/-- Mapping `charDigit` back over a decimal representation recovers the
digit list. -/
theorem decimalRepr_map_charDigit (k : Nat) :
    (decimalRepr k).map charDigit = (Nat.digits 10 k).reverse := by
  unfold decimalRepr
  rw [List.map_map]
  conv_rhs => rw [← List.map_id ((Nat.digits 10 k).reverse)]
  apply List.map_congr_left
  intro a ha
  exact charDigit_digitChar a (Nat.digits_lt_base (by norm_num) (List.mem_reverse.mp ha))

/-- Distinct naturals have distinct decimal representations. -/
theorem decimalRepr_injective : Function.Injective decimalRepr := by
  intro m n h
  have h2 : (Nat.digits 10 m).reverse = (Nat.digits 10 n).reverse := by
    rw [← decimalRepr_map_charDigit, ← decimalRepr_map_charDigit, h]
  exact Nat.digits.injective 10 (List.reverse_injective h2)

/-- A positive number's decimal representation has no leading zero. -/
theorem decimalRepr_head_ne_zero {m : Nat} (hm : m ≠ 0) {c : Char} {cs : List Char}
    (hrepr : decimalRepr m = c :: cs) : c ≠ '0' := by
  have hne : Nat.digits 10 m ≠ [] := Nat.digits_ne_nil_iff_ne_zero.mpr hm
  obtain ⟨d, ds, hd⟩ : ∃ d ds, (Nat.digits 10 m).reverse = d :: ds := by
    cases hrev : (Nat.digits 10 m).reverse with
    | nil => exact absurd (by simpa using hrev) hne
    | cons d ds => exact ⟨d, ds, rfl⟩
  have hc : c = Nat.digitChar d := by
    unfold decimalRepr at hrepr
    rw [hd] at hrepr
    simp only [List.map_cons, List.cons.injEq] at hrepr
    exact hrepr.1.symm
  have hd_mem : d ∈ Nat.digits 10 m := List.mem_reverse.mp (hd ▸ List.mem_cons_self d ds)
  have hd10 : d < 10 := Nat.digits_lt_base (by norm_num) hd_mem
  have hdlast : (Nat.digits 10 m).getLast hne = d := by
    have hh := List.head?_reverse (Nat.digits 10 m)
    rw [hd, List.getLast?_eq_getLast_of_ne_nil hne] at hh
    exact (Option.some.inj hh).symm
  have hd0 : d ≠ 0 := by
    have hz : (Nat.digits 10 m).getLast hne ≠ 0 := Nat.getLast_digit_ne_zero 10 hm
    rw [hdlast] at hz
    exact hz
  subst hc
  exact (by decide : ∀ e : Nat, e < 10 → e ≠ 0 → Nat.digitChar e ≠ '0') d hd10 hd0

/-- Two zero-padded lists with nonzero-leading payloads are equal only
when the payloads are. -/
theorem replicate_append_cancel {p q : Nat} {x y : List Char}
    (hx : ∀ c cs, x = c :: cs → c ≠ '0') (hy : ∀ c cs, y = c :: cs → c ≠ '0')
    (h : List.replicate p '0' ++ x = List.replicate q '0' ++ y) : x = y := by
  induction p generalizing q with
  | zero =>
    cases q with
    | zero => simpa using h
    | succ q' =>
      rw [List.replicate_succ] at h
      simp only [List.replicate_zero, List.nil_append, List.cons_append] at h
      exact absurd rfl (hx '0' _ h)
  | succ p' ih =>
    cases q with
    | zero =>
      rw [List.replicate_succ] at h
      simp only [List.replicate_zero, List.nil_append, List.cons_append] at h
      exact absurd rfl (hy '0' _ h.symm)
    | succ q' =>
      rw [List.replicate_succ, List.replicate_succ] at h
      simp only [List.cons_append] at h
      injection h with h1 h2
      exact ih h2

/-- `zfill4` is injective on positive sequence numbers. -/
theorem zfill4_injective {m n : Nat} (hm : m ≠ 0) (hn : n ≠ 0)
    (h : zfill4 m = zfill4 n) : m = n := by
  have hd : List.replicate (4 - (decimalRepr m).length) '0' ++ decimalRepr m
      = List.replicate (4 - (decimalRepr n).length) '0' ++ decimalRepr n :=
    congrArg String.data h
  exact decimalRepr_injective (replicate_append_cancel
    (fun c cs hc => decimalRepr_head_ne_zero hm hc)
    (fun c cs hc => decimalRepr_head_ne_zero hn hc) hd)

/-- C8: a created order's number is `ORD-<today>-<zfill4 (count+1)>`
where `count` is the number of the day's existing orders; numbers
generated on the same day from different counts are distinct, and the
sequence component `count + 1` is strictly increasing in the count. -/
theorem C8_order_number_allocation (today : String) (j k : Nat) :
    (∀ (custId : String) (items : List OrderItem) (addr : Option String)
        (fee disc tip : ℚ) (cpn : Option String) (pm : String) (now : Nat) (o : Order),
      create_order custId items addr fee disc tip cpn pm today j now = .ok o →
      o.orderNumber = "ORD-" ++ today ++ "-" ++ zfill4 (j + 1)) ∧
    (j ≠ k → generate_order_number today j ≠ generate_order_number today k) ∧
    (j < k → j + 1 < k + 1) := by
  refine ⟨?_, ?_, fun hlt => Nat.succ_lt_succ hlt⟩
  · intro custId items addr fee disc tip cpn pm now o h
    unfold create_order at h
    split at h
    · exact Except.noConfusion h
    · split at h
      · exact Except.noConfusion h
      · injection h with h; subst h; rfl
  · intro hjk heq
    apply hjk
    unfold generate_order_number at heq
    have hdata := congrArg String.data heq
    simp only [String.data_append, List.append_assoc] at hdata
    have h1 := List.append_cancel_left hdata
    have h2 := List.append_cancel_left h1
    have h3 := List.append_cancel_left h2
    have h4 := zfill4_injective (Nat.succ_ne_zero j) (Nat.succ_ne_zero k) (String.ext h3)
    exact Nat.succ_injective h4

/-- Evaluates `C8_order_number_allocation` at concrete counts 0 and 1 of
the same day. -/
theorem C8_order_number_allocation_witness :
    generate_order_number "20251012" 0 ≠ generate_order_number "20251012" 1 ∧
    (0 : Nat) + 1 < 1 + 1 ∧
    fractionalOrder.orderNumber = "ORD-" ++ "20251012" ++ "-" ++ zfill4 (0 + 1) :=
  ⟨(C8_order_number_allocation "20251012" 0 1).2.1 (by decide),
   (C8_order_number_allocation "20251012" 0 1).2.2 (by decide),
   (C8_order_number_allocation "20251012" 0 1).1 "alice" [fractionalItem]
     (some "addr") 0 0 0 none "cash" 3 fractionalOrder
     (by unfold create_order fractionalOrder
         norm_num [fractionalItem, round2, round_eq])⟩
